import Mathlib

/-!
Verification of `sungrow_monitor.py`, a fixed-interval telemetry bridge:
it polls a Sungrow inverter for named readings, builds a flat payload
record, serializes it into a JSON-like string and publishes it over MQTT,
looping forever with a sleep and a systemd watchdog notification per tick.

The shallow embedding below translates the Python of
`receive_and_publish` and `main` into Lean: Python values occurring in
the payload become the inductive `Value` (int, float, str), the payload
dict becomes an insertion-ordered association list with Python dict
update semantics (`dictInsert`), and the string operations used by the
serializer (`str.replace` on single-character patterns, `str.strip`,
`str.isdigit`, `str.replace(".", "", 1)`) are modelled character-wise.
The effectful cycle (`receive_and_publish`) and the scheduler loop
(`main`) are modelled as trace-producing functions over an environment
that injects the outcomes of the external collaborators (websocket
`get_data`, MQTT `connect`, `publish`, `disconnect`).
-/

/-- A Python value as it can occur in the payload dict: an `int`, a
`float` (represented by a rational; the code never inspects the float
beyond its type, see `serializeEntry`), or a `str`. -/
inductive Value where
  | int (n : ℤ)
  | float (x : ℚ)
  | str (s : String)
deriving DecidableEq

/-- Discriminator for the float case (Python `isinstance(value, float)`). -/
def Value.isFloat : Value → Bool
  | Value.float _ => true
  | _ => false

/-- One item of the mapping returned by `SungrowWebsocket.get_data`:
the code reads `item.value` and `item.desc`. -/
structure Reading where
  value : Value
  desc : String
deriving DecidableEq

/-- Python `s.replace(c, "")` for a single-character pattern `c`:
every occurrence of `c` is removed. -/
def pyDropChar (c : Char) (s : List Char) : List Char :=
  s.filter (fun x => x ≠ c)

/-- Python `s.replace(a, b)` for single-character pattern and
replacement: every occurrence of `a` becomes `b`. -/
def pySubstChar (a b : Char) (s : List Char) : List Char :=
  s.map (fun x => if x = a then b else x)

/-- The characters removed by Python's `str.strip()` (the `str.isspace`
set): horizontal tab through carriage return (9-13), the information
separators 28-31, space, next line (133), no-break space (160), ogham
space mark (5760), the Unicode spaces 8192-8202, line and paragraph
separator (8232, 8233), narrow no-break space (8239), medium
mathematical space (8287) and ideographic space (12288). -/
def pyWhitespace : List Nat :=
  [9, 10, 11, 12, 13, 28, 29, 30, 31, 32, 133, 160, 5760,
    8192, 8193, 8194, 8195, 8196, 8197, 8198, 8199, 8200, 8201, 8202,
    8232, 8233, 8239, 8287, 12288]

/-- Python's per-character whitespace test. -/
def pyIsspaceChar (c : Char) : Bool :=
  pyWhitespace.contains c.toNat

/-- Python `s.strip()`: remove leading and trailing whitespace. -/
def pyStrip (s : List Char) : List Char :=
  ((s.dropWhile pyIsspaceChar).reverse.dropWhile pyIsspaceChar).reverse

/-- The key sanitization applied by the serializer's f-strings:
`key.replace("(", "").replace(")", "").replace(" ", "_").strip()`. -/
def sanitize (key : String) : String :=
  String.mk (pyStrip (pySubstChar ' ' '_' (pyDropChar ')' (pyDropChar '(' key.data))))

/-- Python `s.replace(".", "", 1)`: remove only the first dot. -/
def pyRemoveFirstDot : List Char → List Char
  | [] => []
  | c :: cs => if c = '.' then cs else c :: pyRemoveFirstDot cs

/-- The characters accepted by Python's `str.isdigit`: exactly the code
points with Unicode Numeric_Type Decimal or Digit - the decimal digits
of every script plus superscripts, circled digits and similar -
enumerated as closed code-point ranges.  Note this is wider than the
ASCII digits: for example the superscript two (178) is accepted. -/
def pyDigitRanges : List (Nat × Nat) :=
  [(48, 57), (178, 179), (185, 185), (1632, 1641), (1776, 1785), (1984, 1993),
    (2406, 2415), (2534, 2543), (2662, 2671), (2790, 2799), (2918, 2927),
    (3046, 3055), (3174, 3183), (3302, 3311), (3430, 3439), (3558, 3567),
    (3664, 3673), (3792, 3801), (3872, 3881), (4160, 4169), (4240, 4249),
    (4969, 4977), (6112, 6121), (6160, 6169), (6470, 6479), (6608, 6618),
    (6784, 6793), (6800, 6809), (6992, 7001), (7088, 7097), (7232, 7241),
    (7248, 7257), (8304, 8304), (8308, 8313), (8320, 8329), (9312, 9320),
    (9332, 9340), (9352, 9360), (9450, 9450), (9461, 9469), (9471, 9471),
    (10102, 10110), (10112, 10120), (10122, 10130), (42528, 42537),
    (43216, 43225), (43264, 43273), (43472, 43481), (43504, 43513),
    (43600, 43609), (44016, 44025), (65296, 65305), (66720, 66729),
    (68160, 68163), (68912, 68921), (69216, 69224), (69714, 69722),
    (69734, 69743), (69872, 69881), (69942, 69951), (70096, 70105),
    (70384, 70393), (70736, 70745), (70864, 70873), (71248, 71257),
    (71360, 71369), (71472, 71481), (71904, 71913), (72016, 72025),
    (72784, 72793), (73040, 73049), (73120, 73129), (92768, 92777),
    (92864, 92873), (93008, 93017), (120782, 120831), (123200, 123209),
    (123632, 123641), (125264, 125273), (127232, 127242), (130032, 130041)]

/-- Python's per-character digit test (`str.isdigit` on one character):
membership in one of the `pyDigitRanges`. -/
def pyIsdigitChar (c : Char) : Bool :=
  pyDigitRanges.any (fun r => decide (r.1 ≤ c.toNat ∧ c.toNat ≤ r.2))

/-- Python `s.isdigit()`: true iff the string is nonempty and all its
characters pass the digit test. -/
def pyIsdigit (s : List Char) : Bool :=
  !s.isEmpty && s.all pyIsdigitChar

/-- The per-item value normalization of the payload loop:
`if value == "--": value = int(0.0)`.  Only the string `"--"` compares
equal to `"--"` in Python (an int or float never does). -/
def pyNormalize (v : Value) : Value :=
  if v = Value.str "--" then Value.int 0 else v

/-- Python dict assignment `d[k] = v` on an insertion-ordered dict
represented as an association list: an existing key keeps its position
and gets the new value, a new key is appended. -/
def dictInsert : List (String × Value) → String → Value → List (String × Value)
  | [], k, v => [(k, v)]
  | kv :: rest, k, v =>
    if kv.1 = k then (k, v) :: rest else kv :: dictInsert rest k v

/-- One iteration of `for item in data.values(): ... payload[desc] = value`. -/
def payloadStep (p : List (String × Value)) (item : Reading) : List (String × Value) :=
  dictInsert p item.desc (pyNormalize item.value)

/-- The payload dict constructed by `receive_and_publish`, lines 67-75:
`payload['sensorID'] = SENSOR_ID`, `payload['timecollected'] = int(time.time())`,
then one `payload[desc] = value` per reading (in `data.values()` order),
with the `"--"` sentinel replaced by the int `0`. -/
def buildPayload (readings : List Reading) (sensorId : String) (now : ℤ) : List (String × Value) :=
  readings.foldl payloadStep [("sensorID", Value.str sensorId), ("timecollected", Value.int now)]

/-- One entry of the serializer's generator expression (lines 78-82).
The condition is `not isinstance(value, int) and not value.replace(".", "", 1).isdigit()`:
for an `int` the first conjunct is false and the entry renders unquoted;
for a `float` Python evaluates `value.replace(...)` and raises
`AttributeError` (floats have no `replace`), modelled as `none`;
for a `str` the digit test decides quoted (with `str(value).strip()`)
versus unquoted (the value rendered verbatim by the f-string). -/
def serializeEntry (key : String) (v : Value) : Option String :=
  match v with
  | Value.int n => some ("\"" ++ sanitize key ++ "\": " ++ toString n)
  | Value.float _ => none
  | Value.str s =>
    if pyIsdigit (pyRemoveFirstDot s.data) then
      some ("\"" ++ sanitize key ++ "\": " ++ s)
    else
      some ("\"" ++ sanitize key ++ "\": \"" ++ String.mk (pyStrip s.data) ++ "\"")

/-- The serializer's generator run left to right; the first entry that
raises aborts the whole serialization. -/
def serializeParts : List (String × Value) → Option (List String)
  | [] => some []
  | kv :: rest =>
    match serializeEntry kv.1 kv.2, serializeParts rest with
    | some s, some ss => some (s :: ss)
    | _, _ => none

/-- `payload_str = "{" + ", ".join(generator) + "}"` (lines 78-82);
`none` when the generator raises (a float value in the payload). -/
def serializePayload (p : List (String × Value)) : Option String :=
  match serializeParts p with
  | none => none
  | some parts => some ("\x7b" ++ String.intercalate ", " parts ++ "\x7d")

/-- Observable steps of one cycle and of the scheduler loop.  A step
event is recorded when the step completes without raising. -/
inductive Event where
  | getData
  | connect
  | build
  | serialize
  | publish (payload : String)
  | disconnect
  | caught
  | sleep
  | notify
deriving DecidableEq

/-- Injected outcomes of the external collaborators for one cycle:
the result of `sg.get_data()`, whether `mqtt_client.connect`,
`mqtt_client.publish`, `mqtt_client.disconnect` raise, plus the
configured identity and the epoch timestamp read by `int(time.time())`. -/
structure Env where
  getData : Except Unit (List Reading)
  connectFails : Bool
  publishFails : Bool
  disconnectFails : Bool
  sensorId : String
  now : ℤ

/-- The body of the `try` block of `receive_and_publish` (lines 61-86),
run after the `SungrowWebsocket` handle has been acquired: the trace of
completed steps, and whether an exception is pending at the end.  The
statement order is that of the source: `get_data`, then `connect`, then
the payload loop, then the serialization, then `publish`, then
`disconnect`. -/
def cycleBody (env : Env) : List Event × Bool :=
  match env.getData with
  | Except.error _ => ([], true)
  | Except.ok data =>
    if env.connectFails then ([Event.getData], true)
    else
      match serializePayload (buildPayload data env.sensorId env.now) with
      | none => ([Event.getData, Event.connect, Event.build], true)
      | some s =>
        if env.publishFails then
          ([Event.getData, Event.connect, Event.build, Event.serialize], true)
        else if env.disconnectFails then
          ([Event.getData, Event.connect, Event.build, Event.serialize, Event.publish s], true)
        else
          ([Event.getData, Event.connect, Event.build, Event.serialize, Event.publish s,
            Event.disconnect], false)

/-- `receive_and_publish` (lines 59-91): the whole body runs inside
`try ... except Exception: print(...); return`, so a pending exception
is caught (the handler prints, recorded as `Event.caught`) and the
function returns normally.  The second component is whether an
exception propagates to the caller. -/
def receive_and_publish (env : Env) : List Event × Bool :=
  match cycleBody env with
  | (tr, true) => (tr ++ [Event.caught], false)
  | (tr, false) => (tr, false)

/-- The scheduler loop of `main` (lines 108-113), run for one injected
environment per tick: `receive_and_publish()`, then
`time.sleep(interval_seconds)`, then `notifier.notify("WATCHDOG=1")`. -/
def mainLoop : List Env → List Event
  | [] => []
  | env :: rest => (receive_and_publish env).1 ++ [Event.sleep, Event.notify] ++ mainLoop rest

/-- Lookup in the association-list dict (first, hence unique, matching key). -/
def pyLookup (k : String) : List (String × Value) → Option Value
  | [] => none
  | kv :: rest => if kv.1 = k then some kv.2 else pyLookup k rest

/-- The last reading of the list carrying a given desc, if any. -/
def lastWithDesc (rs : List Reading) (d : String) : Option Reading :=
  rs.reverse.find? (fun r => r.desc = d)

/-- Whether a cycle run in environment `env` completes the `publish`
call: `get_data` succeeded, `connect` succeeded, the serialization did
not raise, and the publish call itself did not raise. -/
def reachesPublish (env : Env) : Bool :=
  match env.getData with
  | Except.error _ => false
  | Except.ok data =>
    !env.connectFails && !env.publishFails &&
      (serializePayload (buildPayload data env.sensorId env.now)).isSome

/-- Number of publish events in a trace. -/
def publishCount (tr : List Event) : ℕ :=
  tr.countP (fun e => match e with | Event.publish _ => true | _ => false)

/-- Number of liveness (watchdog) notifications in a trace. -/
def notifyCount (tr : List Event) : ℕ :=
  tr.countP (fun e => match e with | Event.notify => true | _ => false)

/-- Modelled from the spec's description of label sanitization, for
comparison with the source's `sanitize`: parenthesis characters are
removed, spaces become underscores, surrounding whitespace is trimmed,
all in a single pass over the characters. -/
def sanitizeDescribed (key : String) : String :=
  String.mk (pyStrip ((key.data.filter (fun c => c ≠ '(' ∧ c ≠ ')')).map
    (fun c => if c = ' ' then '_' else c)))

/-! ### Helper lemmas about the character-level string operations -/

theorem pyDropChar_pyDropChar (l : List Char) :
    pyDropChar ')' (pyDropChar '(' l) = l.filter (fun c => c ≠ '(' ∧ c ≠ ')') := by
  induction l with
  | nil => rfl
  | cons c cs ih =>
    by_cases h1 : c = '('
    · simp [pyDropChar, List.filter_cons, h1] at ih ⊢
      exact ih
    · by_cases h2 : c = ')'
      · simp [pyDropChar, List.filter_cons, h1, h2] at ih ⊢
        exact ih
      · simp [pyDropChar, List.filter_cons, h1, h2] at ih ⊢
        exact ih

theorem mem_pyRemoveFirstDot (c : Char) (hc : c ≠ '.') (l : List Char) (h : c ∈ l) :
    c ∈ pyRemoveFirstDot l := by
  induction l with
  | nil => simp at h
  | cons x xs ih =>
    by_cases hx : x = '.'
    · rcases List.mem_cons.mp h with h' | h'
      · exact absurd (h' ▸ hx ▸ rfl) hc
      · simpa [pyRemoveFirstDot, hx] using h'
    · rcases List.mem_cons.mp h with h' | h'
      · simp [pyRemoveFirstDot, hx, h']
      · simp [pyRemoveFirstDot, hx, ih h']

theorem dot_mem_pyRemoveFirstDot (l : List Char) (h : 2 ≤ l.count '.') :
    '.' ∈ pyRemoveFirstDot l := by
  induction l with
  | nil => simp [List.count_nil] at h
  | cons x xs ih =>
    by_cases hx : x = '.'
    · have hmem : '.' ∈ xs := by
        rw [List.count_cons] at h
        simpa [hx] using h
      simpa [pyRemoveFirstDot, hx] using hmem
    · have hcnt : 2 ≤ xs.count '.' := by
        rw [List.count_cons] at h
        simpa [hx] using h
      simp [pyRemoveFirstDot, hx, ih hcnt]

theorem pyIsdigit_eq_false_of_mem (l : List Char) (c : Char) (hmem : c ∈ l)
    (hc : pyIsdigitChar c = false) : pyIsdigit l = false := by
  cases hall : l.all pyIsdigitChar with
  | false => simp [pyIsdigit, hall]
  | true => exact absurd (List.all_eq_true.mp hall c hmem) (by simp [hc])

/-! ### Claim theorems about sanitization and the quoting rule -/

/-- C4 (amended): the sanitized field name is the label with parentheses
removed, every space (leading, interior or trailing) replaced by an
underscore, and surrounding whitespace trimmed; in particular
`"Active Power (W)"` sanitizes to `"Active_Power_W"`. -/
theorem claim_C4 :
    (∀ key, sanitize key = sanitizeDescribed key) ∧
      sanitize "Active Power (W)" = "Active_Power_W" := by
  constructor
  · intro key
    unfold sanitize sanitizeDescribed pySubstChar
    rw [pyDropChar_pyDropChar]
  · rfl

/-- C4 counterexample: the label `"Active Power (W)"` does not sanitize
to `"Active_PowerW"`; the code keeps the underscore that replaces the
space in front of the parenthesis. -/
theorem claim_C4_counterexample :
    sanitize "Active Power (W)" ≠ "Active_PowerW" ∧
      sanitize "Active Power (W)" = "Active_Power_W" := by
  constructor
  · decide
  · rfl

/-- C10 (amended): a string value containing a character that Python's
`isdigit` rejects - a set wider than the decimal digits, see the
counterexample - and that is not a dot, or containing two or more dots,
is rendered string-quoted with its surrounding whitespace stripped. -/
theorem claim_C10 (k s : String)
    (h : (∃ c ∈ s.data, pyIsdigitChar c = false ∧ c ≠ '.') ∨ 2 ≤ s.data.count '.') :
    serializeEntry k (Value.str s) =
      some ("\"" ++ sanitize k ++ "\": \"" ++ String.mk (pyStrip s.data) ++ "\"") := by
  have hfalse : pyIsdigit (pyRemoveFirstDot s.data) = false := by
    rcases h with ⟨c, hmem, hdig, hdot⟩ | hcount
    · exact pyIsdigit_eq_false_of_mem _ c (mem_pyRemoveFirstDot c hdot _ hmem) hdig
    · exact pyIsdigit_eq_false_of_mem _ '.' (dot_mem_pyRemoveFirstDot _ hcount) (by decide)
  simp [serializeEntry, hfalse]

theorem claim_C10_witness :
    serializeEntry "v" (Value.str "-12.5") = some "\"v\": \"-12.5\"" :=
  claim_C10 "v" "-12.5" (Or.inl ⟨'-', by decide, by decide, by decide⟩)

/-- C10 counterexample: the superscript two is not a decimal digit and
not a dot, yet Python's `isdigit` accepts it, so the serializer renders
the value `"²"` numeric-unquoted rather than string-quoted. -/
theorem claim_C10_counterexample :
    Char.isDigit '²' = false ∧ '²' ≠ '.' ∧
      serializeEntry "v" (Value.str "²") = some "\"v\": ²" := by
  refine ⟨rfl, by decide, rfl⟩

/-! ### Serializer totality away from floats -/

theorem serializeEntry_isSome (k : String) (v : Value) (h : v.isFloat = false) :
    (serializeEntry k v).isSome = true := by
  cases v with
  | int n => rfl
  | float x => simp [Value.isFloat] at h
  | str s =>
    simp only [serializeEntry]
    split <;> rfl

theorem serializeParts_isSome (p : List (String × Value))
    (h : ∀ kv ∈ p, kv.2.isFloat = false) : (serializeParts p).isSome = true := by
  induction p with
  | nil => rfl
  | cons kv rest ih =>
    obtain ⟨s, hs⟩ :=
      Option.isSome_iff_exists.mp (serializeEntry_isSome kv.1 kv.2 (h kv (by simp)))
    obtain ⟨ss, hss⟩ :=
      Option.isSome_iff_exists.mp (ih (fun kv' hkv' => h kv' (List.mem_cons_of_mem _ hkv')))
    simp [serializeParts, hs, hss]

theorem serializePayload_isSome (p : List (String × Value))
    (h : ∀ kv ∈ p, kv.2.isFloat = false) : (serializePayload p).isSome = true := by
  obtain ⟨parts, hparts⟩ := Option.isSome_iff_exists.mp (serializeParts_isSome p h)
  simp [serializePayload, hparts]

/-! ### Claim theorems about the serializer and the cycle controller -/

/-- C3 (amended): serialization succeeds for every payload whose values
are integers or strings, the empty payload included, and integer values
render numeric-unquoted; a float value, however, makes the whole
serialization fail (Python raises `AttributeError` evaluating
`value.replace` on a float). -/
theorem claim_C3 :
    (∀ p : List (String × Value), (∀ kv ∈ p, kv.2.isFloat = false) →
      (serializePayload p).isSome = true) ∧
    (∀ (k : String) (n : ℤ),
      serializeEntry k (Value.int n) = some ("\"" ++ sanitize k ++ "\": " ++ toString n)) :=
  ⟨serializePayload_isSome, fun _ _ => rfl⟩

theorem claim_C3_witness :
    (serializePayload []).isSome = true ∧
      (serializePayload [("a", Value.int 1), ("b", Value.str "x")]).isSome = true :=
  ⟨claim_C3.1 [] (by decide), claim_C3.1 [("a", Value.int 1), ("b", Value.str "x")] (by decide)⟩

/-- C3 counterexample: a payload holding a float value is not serialized
at all, refuting totality over floats. -/
theorem claim_C3_counterexample :
    serializePayload [("p1", Value.float 1500)] = none := rfl

/-- C2 counterexample: on the spec's scenario, where `p1` carries the
float `1500.0`, the build-then-serialize pipeline produces no string at
all: the serializer evaluates `value.replace` on the float and raises. -/
theorem claim_C2_counterexample :
    serializePayload (buildPayload
      [⟨Value.float 1500, "Active Power (W)"⟩, ⟨Value.str "--", "Status"⟩]
      "node1" 1700000000) = none := rfl

/-- C2 (amended): with `p1` carrying the float `1500.0` the pipeline
fails (no string is produced, see the counterexample); with the value
given as the string `"1500.0"` the pipeline produces exactly the
serialized record whose fields are sensorID, timecollected,
Active_Power_W (note the kept underscore) and Status. -/
theorem claim_C2 :
    serializePayload (buildPayload
      [⟨Value.str "1500.0", "Active Power (W)"⟩, ⟨Value.str "--", "Status"⟩]
      "node1" 1700000000) =
      some "\x7b\"sensorID\": \"node1\", \"timecollected\": 1700000000, \"Active_Power_W\": 1500.0, \"Status\": 0\x7d" := rfl

/-- C1: whatever the outcomes of the collaborator calls made after the
source handle is acquired, `receive_and_publish` returns normally (the
`except` clause catches everything), and if `get_data` raises, no
publish call occurs in that cycle. -/
theorem claim_C1 (env : Env) :
    (receive_and_publish env).2 = false ∧
      (env.getData = Except.error () →
        ∀ s, Event.publish s ∉ (receive_and_publish env).1) := by
  constructor
  · unfold receive_and_publish
    rcases h : cycleBody env with ⟨tr, b⟩
    cases b <;> simp
  · intro hgd s
    have hbody : cycleBody env = ([], true) := by
      unfold cycleBody
      rw [hgd]
    unfold receive_and_publish
    rw [hbody]
    simp

theorem claim_C1_witness :
    (receive_and_publish ⟨Except.error (), false, false, false, "node1", 0⟩).2 = false ∧
      Event.publish "x" ∉
        (receive_and_publish ⟨Except.error (), false, false, false, "node1", 0⟩).1 :=
  ⟨(claim_C1 ⟨Except.error (), false, false, false, "node1", 0⟩).1,
    (claim_C1 ⟨Except.error (), false, false, false, "node1", 0⟩).2 rfl "x"⟩

/-! ### Lemmas about the payload dict -/

theorem pyLookup_dictInsert_self (p : List (String × Value)) (k : String) (v : Value) :
    pyLookup k (dictInsert p k v) = some v := by
  induction p with
  | nil => simp [dictInsert, pyLookup]
  | cons kv rest ih =>
    by_cases h : kv.1 = k
    · simp [dictInsert, h, pyLookup]
    · simp [dictInsert, h, pyLookup, ih]

theorem pyLookup_dictInsert_other (p : List (String × Value)) (k k' : String) (v : Value)
    (h : k' ≠ k) : pyLookup k' (dictInsert p k v) = pyLookup k' p := by
  induction p with
  | nil =>
    have hne : ¬ k = k' := fun hh => h hh.symm
    simp [dictInsert, pyLookup, hne]
  | cons kv rest ih =>
    by_cases hk : kv.1 = k
    · subst hk
      simp [dictInsert, pyLookup, Ne.symm h]
    · by_cases hk' : kv.1 = k'
      · simp [dictInsert, hk, pyLookup, hk', h]
      · simp [dictInsert, hk, pyLookup, hk', ih]

theorem keys_dictInsert (p : List (String × Value)) (k : String) (v : Value) :
    (dictInsert p k v).map Prod.fst =
      if k ∈ p.map Prod.fst then p.map Prod.fst else p.map Prod.fst ++ [k] := by
  induction p with
  | nil => simp [dictInsert]
  | cons kv rest ih =>
    by_cases hk : kv.1 = k
    · simp [dictInsert, hk]
    · by_cases hmem : k ∈ rest.map Prod.fst
      · simp [dictInsert, hk, Ne.symm hk, ih, hmem]
      · simp [dictInsert, hk, Ne.symm hk, ih, hmem]

theorem length_dictInsert (p : List (String × Value)) (k : String) (v : Value) :
    (dictInsert p k v).length =
      if k ∈ p.map Prod.fst then p.length else p.length + 1 := by
  induction p with
  | nil => simp [dictInsert]
  | cons kv rest ih =>
    by_cases hk : kv.1 = k
    · simp [dictInsert, hk]
    · by_cases hmem : k ∈ rest.map Prod.fst
      · simp [dictInsert, hk, Ne.symm hk, ih, hmem]
      · simp [dictInsert, hk, Ne.symm hk, ih, hmem]

theorem mem_dictInsert (p : List (String × Value)) (k : String) (v : Value)
    (kv' : String × Value) (h : kv' ∈ dictInsert p k v) : kv' ∈ p ∨ kv' = (k, v) := by
  induction p with
  | nil =>
    right
    simpa [dictInsert] using h
  | cons kv rest ih =>
    by_cases hk : kv.1 = k
    · rcases List.mem_cons.mp (by simpa [dictInsert, hk] using h) with h' | h'
      · exact Or.inr h'
      · exact Or.inl (List.mem_cons_of_mem _ h')
    · rcases List.mem_cons.mp (by simpa [dictInsert, hk] using h) with h' | h'
      · exact Or.inl (h' ▸ List.mem_cons_self _ _)
      · rcases ih h' with h'' | h''
        · exact Or.inl (List.mem_cons_of_mem _ h'')
        · exact Or.inr h''

theorem mem_dictInsert_of_ne (p : List (String × Value)) (k : String) (v : Value)
    (kv' : String × Value) (h : kv' ∈ p) (hne : kv'.1 ≠ k) : kv' ∈ dictInsert p k v := by
  induction p with
  | nil => simp at h
  | cons kv rest ih =>
    rcases List.mem_cons.mp h with h' | h'
    · by_cases hk : kv.1 = k
      · exact absurd (by rw [h']; exact hk) hne
      · simp [dictInsert, hk, h']
    · by_cases hk : kv.1 = k
      · simp [dictInsert, hk, List.mem_cons_of_mem _ h']
      · simp only [dictInsert, hk, if_false]
        exact List.mem_cons_of_mem _ (ih h')

theorem nodup_keys_dictInsert (p : List (String × Value)) (k : String) (v : Value)
    (h : (p.map Prod.fst).Nodup) : ((dictInsert p k v).map Prod.fst).Nodup := by
  rw [keys_dictInsert]
  by_cases hmem : k ∈ p.map Prod.fst
  · simpa [hmem] using h
  · simp [hmem, List.nodup_append, h]

/-! ### Lemmas about the payload construction loop -/

theorem pyLookup_foldl_of_not_mem (rs : List Reading) (p : List (String × Value)) (d : String)
    (h : ∀ r ∈ rs, r.desc ≠ d) :
    pyLookup d (rs.foldl payloadStep p) = pyLookup d p := by
  induction rs generalizing p with
  | nil => rfl
  | cons r rest ih =>
    rw [List.foldl_cons]
    rw [ih (payloadStep p r) (fun r' hr' => h r' (List.mem_cons_of_mem _ hr'))]
    simp only [payloadStep]
    exact pyLookup_dictInsert_other p r.desc d (pyNormalize r.value)
      (Ne.symm (h r (List.mem_cons_self _ _)))

theorem pyLookup_foldl_last (rs : List Reading) (p : List (String × Value)) (d : String)
    (r : Reading) (h : lastWithDesc rs d = some r) :
    pyLookup d (rs.foldl payloadStep p) = some (pyNormalize r.value) := by
  induction rs using List.reverseRecOn with
  | nil => simp [lastWithDesc] at h
  | append_singleton rs' x ih =>
    rw [List.foldl_append, List.foldl_cons, List.foldl_nil]
    by_cases hx : x.desc = d
    · have hr : x = r := by
        unfold lastWithDesc at h
        rw [List.reverse_append] at h
        simpa [hx] using h
      subst hr
      simp only [payloadStep]
      rw [← hx]
      exact pyLookup_dictInsert_self _ _ _
    · have h' : lastWithDesc rs' d = some r := by
        unfold lastWithDesc at h ⊢
        rw [List.reverse_append] at h
        simpa [hx] using h
      simp only [payloadStep]
      rw [pyLookup_dictInsert_other _ _ _ _ (fun hd => hx hd.symm)]
      exact ih h'

theorem nodup_keys_foldl (rs : List Reading) (p : List (String × Value))
    (h : (p.map Prod.fst).Nodup) : ((rs.foldl payloadStep p).map Prod.fst).Nodup := by
  induction rs generalizing p with
  | nil => exact h
  | cons r rest ih =>
    rw [List.foldl_cons]
    exact ih _ (nodup_keys_dictInsert _ _ _ h)

theorem mem_foldl_payloadStep (rs : List Reading) (p : List (String × Value))
    (kv' : String × Value) (h : kv' ∈ p) (hk : ∀ r ∈ rs, r.desc ≠ kv'.1) :
    kv' ∈ rs.foldl payloadStep p := by
  induction rs generalizing p with
  | nil => exact h
  | cons r rest ih =>
    rw [List.foldl_cons]
    exact ih _ (mem_dictInsert_of_ne p r.desc (pyNormalize r.value) kv' h
        (fun he => hk r (List.mem_cons_self _ _) he.symm))
      (fun r' hr' => hk r' (List.mem_cons_of_mem _ hr'))

theorem length_foldl_payloadStep (rs : List Reading) (p : List (String × Value))
    (hnd : (rs.map Reading.desc).Nodup)
    (hfresh : ∀ r ∈ rs, r.desc ∉ p.map Prod.fst) :
    (rs.foldl payloadStep p).length = p.length + rs.length := by
  induction rs generalizing p with
  | nil => simp
  | cons r rest ih =>
    rw [List.foldl_cons]
    have hne : r.desc ∉ p.map Prod.fst := hfresh r (List.mem_cons_self _ _)
    have hlen : (payloadStep p r).length = p.length + 1 := by
      simp only [payloadStep]
      rw [length_dictInsert]
      simp [hne]
    have hkeys : (payloadStep p r).map Prod.fst = p.map Prod.fst ++ [r.desc] := by
      simp only [payloadStep]
      rw [keys_dictInsert]
      simp [hne]
    rw [List.map_cons, List.nodup_cons] at hnd
    have hfresh' : ∀ r' ∈ rest, r'.desc ∉ (payloadStep p r).map Prod.fst := by
      intro r' hr'
      rw [hkeys]
      intro hmem
      rcases List.mem_append.mp hmem with hm | hm
      · exact hfresh r' (List.mem_cons_of_mem _ hr') hm
      · have : r'.desc = r.desc := by simpa using hm
        exact hnd.1 (this ▸ List.mem_map_of_mem Reading.desc hr')
    rw [ih _ hnd.2 hfresh', hlen]
    simp only [List.length_cons]
    omega

/-! ### Claim theorems about the payload invariants -/

/-- C7 (amended): the payload keys are the raw labels and are always
pairwise distinct, and when several readings carry the same raw label
the field holds the last one's normalized value (last writer wins).
Distinct labels that merely sanitize to the same field name are not
merged (see the counterexample). -/
theorem claim_C7 :
    (∀ (rs : List Reading) (id : String) (t : ℤ),
      ((buildPayload rs id t).map Prod.fst).Nodup) ∧
    (∀ (rs : List Reading) (id : String) (t : ℤ) (d : String) (r : Reading),
      lastWithDesc rs d = some r →
      pyLookup d (buildPayload rs id t) = some (pyNormalize r.value)) := by
  constructor
  · intro rs id t
    exact nodup_keys_foldl rs
      [("sensorID", Value.str id), ("timecollected", Value.int t)]
      (show (["sensorID", "timecollected"] : List String).Nodup by decide)
  · intro rs id t d r h
    exact pyLookup_foldl_last rs
      [("sensorID", Value.str id), ("timecollected", Value.int t)] d r h

theorem claim_C7_witness :
    pyLookup "P" (buildPayload [⟨Value.int 1, "P"⟩, ⟨Value.int 2, "P"⟩] "id" 0) =
      some (Value.int 2) :=
  claim_C7.2 [⟨Value.int 1, "P"⟩, ⟨Value.int 2, "P"⟩] "id" 0 "P" ⟨Value.int 2, "P"⟩ (by decide)

/-- C7 counterexample: the two distinct labels `"a b"` and `"a_b"` both
sanitize to `"a_b"`, yet no overwrite happens: the serialized record
contains the field name `"a_b"` twice, with both values. -/
theorem claim_C7_counterexample :
    ((buildPayload [⟨Value.int 1, "a b"⟩, ⟨Value.int 2, "a_b"⟩] "id" 0).map
        (fun kv => sanitize kv.1)).count "a_b" = 2 ∧
      serializePayload (buildPayload [⟨Value.int 1, "a b"⟩, ⟨Value.int 2, "a_b"⟩] "id" 0) =
        some "\x7b\"sensorID\": \"id\", \"timecollected\": 0, \"a_b\": 1, \"a_b\": 2\x7d" := by
  constructor
  · decide
  · rfl

/-- C8: a reading whose raw value is the sentinel string `"--"` ends up
as the integer `0` in the built payload, never as the sentinel itself,
and any other value passes through unchanged (stated for a reading whose
label is carried by no other reading, so that its field is its own). -/
theorem claim_C8 (rs : List Reading) (id : String) (t : ℤ) (r : Reading)
    (hmem : r ∈ rs) (huniq : ∀ r' ∈ rs, r'.desc = r.desc → r' = r) :
    pyLookup r.desc (buildPayload rs id t) =
      some (if r.value = Value.str "--" then Value.int 0 else r.value) := by
  have hlast : lastWithDesc rs r.desc = some r := by
    unfold lastWithDesc
    cases hfind : rs.reverse.find? (fun x => x.desc = r.desc) with
    | none =>
      exfalso
      have := List.find?_eq_none.mp hfind r (List.mem_reverse.mpr hmem)
      simp at this
    | some x =>
      have hx : x.desc = r.desc := by
        have := List.find?_some hfind
        simpa using this
      have hxr : x = r := huniq x (List.mem_reverse.mp (List.mem_of_find?_eq_some hfind)) hx
      rw [hxr]
  have hres := pyLookup_foldl_last rs
    [("sensorID", Value.str id), ("timecollected", Value.int t)] r.desc r hlast
  simpa [pyNormalize, buildPayload] using hres

theorem claim_C8_witness :
    pyLookup "Status"
        (buildPayload [⟨Value.str "--", "Status"⟩, ⟨Value.int 7, "Power"⟩] "node1" 5) =
      some (Value.int 0) :=
  claim_C8 [⟨Value.str "--", "Status"⟩, ⟨Value.int 7, "Power"⟩] "node1" 5
    ⟨Value.str "--", "Status"⟩ (by decide) (by decide)

/-- C9 (amended): provided no reading's label equals one of the two
fixed field names, the built payload contains `sensorID == id` and
`timecollected == t`, and has exactly `len(R) + 2` entries whenever all
labels sanitize to distinct names. -/
theorem claim_C9 (rs : List Reading) (id : String) (t : ℤ)
    (hfix : ∀ r ∈ rs, r.desc ≠ "sensorID" ∧ r.desc ≠ "timecollected") :
    ("sensorID", Value.str id) ∈ buildPayload rs id t ∧
    ("timecollected", Value.int t) ∈ buildPayload rs id t ∧
    ((rs.map (fun r => sanitize r.desc)).Nodup →
      (buildPayload rs id t).length = rs.length + 2) := by
  refine ⟨?_, ?_, ?_⟩
  · exact mem_foldl_payloadStep rs
      [("sensorID", Value.str id), ("timecollected", Value.int t)]
      ("sensorID", Value.str id) (by simp) (fun r hr => (hfix r hr).1)
  · exact mem_foldl_payloadStep rs
      [("sensorID", Value.str id), ("timecollected", Value.int t)]
      ("timecollected", Value.int t) (by simp) (fun r hr => (hfix r hr).2)
  · intro hnd
    have hnd' : (rs.map Reading.desc).Nodup := by
      have hmm : rs.map (fun r => sanitize r.desc) = (rs.map Reading.desc).map sanitize := by
        rw [List.map_map]
        rfl
      rw [hmm] at hnd
      exact hnd.of_map
    have hfresh : ∀ r ∈ rs, r.desc ∉
        ([("sensorID", Value.str id), ("timecollected", Value.int t)].map Prod.fst) := by
      intro r hr
      simp
      exact ⟨(hfix r hr).1, (hfix r hr).2⟩
    have h2 := length_foldl_payloadStep rs
      [("sensorID", Value.str id), ("timecollected", Value.int t)] hnd' hfresh
    simp only [buildPayload, List.length_cons, List.length_nil] at h2 ⊢
    omega

theorem claim_C9_witness :
    ("sensorID", Value.str "node1") ∈ buildPayload [⟨Value.int 5, "Power"⟩] "node1" 7 ∧
      (buildPayload [⟨Value.int 5, "Power"⟩] "node1" 7).length = 1 + 2 :=
  ⟨(claim_C9 [⟨Value.int 5, "Power"⟩] "node1" 7 (by decide)).1,
    (claim_C9 [⟨Value.int 5, "Power"⟩] "node1" 7 (by decide)).2.2 (by decide)⟩

/-- C9 counterexample: a reading whose label is `"sensorID"` overwrites
the fixed identity field, so the payload neither keeps `sensorID == id`
nor reaches `len(R) + 2` entries, although the (single) label trivially
sanitizes to a distinct name. -/
theorem claim_C9_counterexample :
    ([(⟨Value.int 5, "sensorID"⟩ : Reading)].map (fun r => sanitize r.desc)).Nodup ∧
      (buildPayload [⟨Value.int 5, "sensorID"⟩] "node1" 7).length = 2 ∧
      ("sensorID", Value.str "node1") ∉ buildPayload [⟨Value.int 5, "sensorID"⟩] "node1" 7 := by
  refine ⟨by decide, by decide, by decide⟩

/-! ### Lemmas about the cycle trace and the scheduler loop -/

theorem publishCount_cycle (env : Env) :
    publishCount (receive_and_publish env).1 = if reachesPublish env then 1 else 0 := by
  obtain ⟨gd, cf, pf, df, sid, now⟩ := env
  cases gd with
  | error e => simp [receive_and_publish, cycleBody, reachesPublish, publishCount]
  | ok data =>
    cases cf with
    | true => simp [receive_and_publish, cycleBody, reachesPublish, publishCount]
    | false =>
      cases hs : serializePayload (buildPayload data sid now) with
      | none => simp [receive_and_publish, cycleBody, reachesPublish, publishCount, hs]
      | some s =>
        cases pf with
        | true => simp [receive_and_publish, cycleBody, reachesPublish, publishCount, hs]
        | false =>
          cases df with
          | true => simp [receive_and_publish, cycleBody, reachesPublish, publishCount, hs]
          | false => simp [receive_and_publish, cycleBody, reachesPublish, publishCount, hs]

theorem notifyCount_cycle (env : Env) : notifyCount (receive_and_publish env).1 = 0 := by
  obtain ⟨gd, cf, pf, df, sid, now⟩ := env
  cases gd with
  | error e => simp [receive_and_publish, cycleBody, notifyCount]
  | ok data =>
    cases cf with
    | true => simp [receive_and_publish, cycleBody, notifyCount]
    | false =>
      cases hs : serializePayload (buildPayload data sid now) with
      | none => simp [receive_and_publish, cycleBody, notifyCount, hs]
      | some s =>
        cases pf with
        | true => simp [receive_and_publish, cycleBody, notifyCount, hs]
        | false =>
          cases df with
          | true => simp [receive_and_publish, cycleBody, notifyCount, hs]
          | false => simp [receive_and_publish, cycleBody, notifyCount, hs]

theorem notifyCount_mainLoop (envs : List Env) :
    notifyCount (mainLoop envs) = envs.length := by
  induction envs with
  | nil => rfl
  | cons env rest ih =>
    have h0 := notifyCount_cycle env
    simp only [mainLoop, notifyCount, List.countP_append, List.countP_cons,
      List.countP_nil] at h0 ih ⊢
    rw [h0, ih]
    simp
    try omega

theorem publishCount_mainLoop (envs : List Env) :
    publishCount (mainLoop envs) = envs.countP reachesPublish := by
  induction envs with
  | nil => rfl
  | cons env rest ih =>
    have h0 := publishCount_cycle env
    simp only [mainLoop, publishCount, List.countP_append, List.countP_cons,
      List.countP_nil] at h0 ih ⊢
    rw [h0, ih]
    cases hreach : reachesPublish env <;> (simp [hreach]; try omega)

/-! ### Claim theorems about the scheduler loop and the cycle order -/

/-- C5 (amended): every scheduler iteration runs the cycle, then the
interval sleep, then emits exactly one liveness signal (the watchdog
notification comes after the sleep, not before it); over N ticks with
one source failure and otherwise publishing ticks, exactly N liveness
signals and N-1 publish calls occur. -/
theorem claim_C5 :
    (∀ (env : Env) (rest : List Env),
      mainLoop (env :: rest) =
        (receive_and_publish env).1 ++ [Event.sleep, Event.notify] ++ mainLoop rest) ∧
    (∀ (pre post : List Env) (failEnv : Env),
      failEnv.getData = Except.error () →
      (∀ env ∈ pre ++ post, reachesPublish env = true) →
      notifyCount (mainLoop (pre ++ failEnv :: post)) = (pre ++ failEnv :: post).length ∧
      publishCount (mainLoop (pre ++ failEnv :: post)) = pre.length + post.length) := by
  constructor
  · intro env rest
    rfl
  · intro pre post failEnv hfail hgood
    refine ⟨notifyCount_mainLoop _, ?_⟩
    rw [publishCount_mainLoop]
    have hfailP : reachesPublish failEnv = false := by
      simp [reachesPublish, hfail]
    have hpre : pre.countP reachesPublish = pre.length :=
      List.countP_eq_length.mpr (fun e he => hgood e (List.mem_append_left _ he))
    have hpost : post.countP reachesPublish = post.length :=
      List.countP_eq_length.mpr (fun e he => hgood e (List.mem_append_right _ he))
    simp [List.countP_append, List.countP_cons, hpre, hpost, hfailP]

theorem claim_C5_witness :
    notifyCount (mainLoop
        [⟨Except.ok [⟨Value.int 3, "Power"⟩], false, false, false, "id", 0⟩,
          ⟨Except.error (), false, false, false, "id", 0⟩,
          ⟨Except.ok [⟨Value.int 3, "Power"⟩], false, false, false, "id", 0⟩]) = 3 ∧
      publishCount (mainLoop
        [⟨Except.ok [⟨Value.int 3, "Power"⟩], false, false, false, "id", 0⟩,
          ⟨Except.error (), false, false, false, "id", 0⟩,
          ⟨Except.ok [⟨Value.int 3, "Power"⟩], false, false, false, "id", 0⟩]) = 2 :=
  claim_C5.2
    [⟨Except.ok [⟨Value.int 3, "Power"⟩], false, false, false, "id", 0⟩]
    [⟨Except.ok [⟨Value.int 3, "Power"⟩], false, false, false, "id", 0⟩]
    ⟨Except.error (), false, false, false, "id", 0⟩
    rfl (by decide)

/-- C5 counterexample: in the code the liveness signal is emitted after
the interval sleep, not before it: on a single failing tick the trace is
cycle, sleep, notify, so the sleep strictly precedes the notification. -/
theorem claim_C5_counterexample :
    mainLoop [⟨Except.error (), false, false, false, "id", 0⟩] =
        [Event.caught, Event.sleep, Event.notify] ∧
      (mainLoop [⟨Except.error (), false, false, false, "id", 0⟩]).indexOf Event.sleep <
        (mainLoop [⟨Except.error (), false, false, false, "id", 0⟩]).indexOf Event.notify := by
  refine ⟨rfl, by decide⟩

/-- C6 (amended): whenever a publish happens, the cycle's steps occurred
in the order: acquire readings, open the MQTT connection, build the
payload (capturing the timestamp), serialize, publish — the connection
is opened before, not after, the payload is built and serialized — and
the cycle then either disconnects or catches a disconnect failure. -/
theorem claim_C6 (env : Env) (s : String)
    (h : Event.publish s ∈ (receive_and_publish env).1) :
    ∃ rest, (receive_and_publish env).1 =
        [Event.getData, Event.connect, Event.build, Event.serialize, Event.publish s] ++ rest ∧
      (rest = [Event.disconnect] ∨ rest = [Event.caught]) := by
  obtain ⟨gd, cf, pf, df, sid, now⟩ := env
  cases gd with
  | error e => simp [receive_and_publish, cycleBody] at h
  | ok data =>
    cases cf with
    | true => simp [receive_and_publish, cycleBody] at h
    | false =>
      cases hs : serializePayload (buildPayload data sid now) with
      | none => simp [receive_and_publish, cycleBody, hs] at h
      | some s' =>
        cases pf with
        | true => simp [receive_and_publish, cycleBody, hs] at h
        | false =>
          cases df with
          | true =>
            have hss : s = s' := by
              simpa [receive_and_publish, cycleBody, hs] using h
            subst hss
            refine ⟨[Event.caught], ?_, Or.inr rfl⟩
            simp [receive_and_publish, cycleBody, hs]
          | false =>
            have hss : s = s' := by
              simpa [receive_and_publish, cycleBody, hs] using h
            subst hss
            refine ⟨[Event.disconnect], ?_, Or.inl rfl⟩
            simp [receive_and_publish, cycleBody, hs]

theorem claim_C6_witness :
    ∃ rest,
      (receive_and_publish
          ⟨Except.ok [⟨Value.int 3, "Power"⟩], false, false, false, "id", 0⟩).1 =
        [Event.getData, Event.connect, Event.build, Event.serialize,
          Event.publish "\x7b\"sensorID\": \"id\", \"timecollected\": 0, \"Power\": 3\x7d"] ++
          rest ∧
      (rest = [Event.disconnect] ∨ rest = [Event.caught]) :=
  claim_C6 ⟨Except.ok [⟨Value.int 3, "Power"⟩], false, false, false, "id", 0⟩
    "\x7b\"sensorID\": \"id\", \"timecollected\": 0, \"Power\": 3\x7d" (by decide)

/-- C6 counterexample: in a fully successful cycle the MQTT connection
is opened directly after `get_data`, before the payload is built and
serialized, contradicting the claimed connect-after-serialize order. -/
theorem claim_C6_counterexample :
    (receive_and_publish
        ⟨Except.ok [⟨Value.int 3, "Power"⟩], false, false, false, "id", 0⟩).1 =
      [Event.getData, Event.connect, Event.build, Event.serialize,
        Event.publish "\x7b\"sensorID\": \"id\", \"timecollected\": 0, \"Power\": 3\x7d",
        Event.disconnect] ∧
    (receive_and_publish
        ⟨Except.ok [⟨Value.int 3, "Power"⟩], false, false, false, "id", 0⟩).1.indexOf
        Event.connect <
      (receive_and_publish
          ⟨Except.ok [⟨Value.int 3, "Power"⟩], false, false, false, "id", 0⟩).1.indexOf
        Event.serialize := by
  refine ⟨rfl, by decide⟩
